import Mathlib

/-!
Shallow embedding of `main.py` of the PSMPChecker repository.

Python strings are modelled as Lean `String` (lists of characters); Python
string primitives (`split`, `strip`, `startswith`, `lower`, the `in`
operator) are reimplemented below with Python semantics.  Results of shell
commands are passed in as `Except Unit String` (`.error ()` stands for a
`subprocess.CalledProcessError` of the invoked command, `.ok out` for its
captured output).  Functions that can raise an uncaught Python exception
return `Except String α`, the `.error` carrying the exception's name.
Python's `float` values arising from `float("maj.min")` are modelled
exactly as rationals together with the matched digit strings; at every
value compared in this development the exact-rational order agrees with
IEEE double order, since distinct short decimal literals round to distinct
doubles in a monotone way.
-/

/-- Python `pat in s` (substring containment) on character lists. -/
def hasSub (pat : List Char) : List Char → Bool
  | [] => pat.isEmpty
  | c :: rest => List.isPrefixOf pat (c :: rest) || hasSub pat rest

/-- Python `pat in s` for strings. -/
def strContains (s pat : String) : Bool :=
  hasSub pat.data s.data

/-- Python `s.startswith(pre)`. -/
def pyStartsWith (s pre : String) : Bool :=
  List.isPrefixOf pre.data s.data

/-- Python `s.lower()` (ASCII case folding, as in the names this program
compares). -/
def pyLower (s : String) : String :=
  ⟨s.data.map Char.toLower⟩

/-- Python `s.strip()` (whitespace stripped from both ends). -/
def pyStrip (s : String) : String :=
  ⟨((s.data.dropWhile Char.isWhitespace).reverse.dropWhile Char.isWhitespace).reverse⟩

/-- Python `s.split(sep)` for a single-character separator: the result is
always non-empty and the separator occurs in no component. -/
def pySplit (sep : Char) : List Char → List (List Char)
  | [] => [[]]
  | c :: rest =>
    let r := pySplit sep rest
    if c = sep then [] :: r
    else
      match r with
      | [] => [[c]]
      | h :: t => (c :: h) :: t

/-- Splits `l` before the first occurrence of `sep`, when there is one. -/
def breakAtChar (sep : Char) : List Char → Option (List Char × List Char)
  | [] => none
  | c :: rest =>
    if c = sep then some ([], rest)
    else
      match breakAtChar sep rest with
      | none => none
      | some (a, b) => some (c :: a, b)

/-- Python `s.split(sep, maxsplit)` for a single-character separator. -/
def pySplitMax (sep : Char) : Nat → List Char → List (List Char)
  | 0, l => [l]
  | n + 1, l =>
    match breakAtChar sep l with
    | none => [l]
    | some (a, b) => a :: pySplitMax sep n b

/-- One entry of the support matrix's `supported_distributions` list
(`versions` are the declared distro-version prefixes). -/
structure SupportedDistribution where
  name : String
  versions : List String
deriving DecidableEq

/-- The rule stored under one version key of the support matrix. -/
structure VersionRule where
  supported_distributions : List SupportedDistribution
deriving DecidableEq

/-- The JSON support matrix: an insertion-ordered mapping from version-string
keys to rules, modelled as an association list (Python dicts are ordered). -/
abbrev SupportMatrix := List (String × VersionRule)

/-- `is_supported` from `main.py` lines 38-49: an exact-membership pre-check
on the keys (`if psmp_version not in psmp_versions: return False`), then a
scan over all keys starting with `psmp_version`, matching the distro name
case-insensitively and the distro version by declared prefix. -/
def is_supported (psmp_versions : SupportMatrix) (psmp_version distro_name distro_version : String) : Bool :=
  if !(psmp_versions.any fun kv => kv.1 == psmp_version) then false
  else
    psmp_versions.any fun kv =>
      pyStartsWith kv.1 psmp_version &&
        kv.2.supported_distributions.any fun di =>
          pyLower di.name == pyLower distro_name &&
            di.versions.any fun sv => pyStartsWith distro_version sv

/-- Written from claim C1's words (not from the source): true iff some matrix
key starts with the installed version and, under it, some entry's name equals
the distro name case-insensitively and some declared version-prefix is a
prefix of the distro version string — with no exact-key membership demand. -/
def claimSupported (psmp_versions : SupportMatrix) (psmp_version distro_name distro_version : String) : Bool :=
  psmp_versions.any fun kv =>
    pyStartsWith kv.1 psmp_version &&
      kv.2.supported_distributions.any fun di =>
        pyLower di.name == pyLower distro_name &&
          di.versions.any fun sv => pyStartsWith distro_version sv

/-- `get_installed_psmp_version` from `main.py` lines 16-27.  `rpmCmd` is the
result of `rpm -qa | grep -i cark` (`.error ()` = `CalledProcessError`, caught
and mapped to `None`).  A non-empty stripped output is split on `-`; indexing
`[1]` raises `IndexError` when there is no `-`, and the three-way unpacking of
`version.split('.', 2)` raises `ValueError` when the version token has fewer
than three `.`-separated components; both exceptions are uncaught.  An empty
output falls through to the implicit `None` return. -/
def get_installed_psmp_version (rpmCmd : Except Unit String) : Except String (Option String) :=
  match rpmCmd with
  | .error _ => .ok none
  | .ok raw =>
    let result := pyStrip raw
    if result.data.isEmpty then .ok none
    else
      match pySplit '-' result.data with
      | _ :: version :: _ =>
        match pySplitMax '.' 2 version with
        | [major, minor, _] => .ok (some ⟨major ++ '.' :: minor⟩)
        | _ => .error "ValueError"
      | _ => .error "IndexError"

/-- The major.minor normalization inside `get_linux_distribution`
(`main.py` lines 31-34): split the version string on `.`, keep the first
component as major, the second as minor when present and `"0"` otherwise. -/
def normalizeChars (l : List Char) : List Char :=
  let version_parts := pySplit '.' l
  version_parts.headD [] ++ '.' :: version_parts.getD 1 ['0']

/-- String form of the distro-version normalization of
`get_linux_distribution`. -/
def normalize_distro_version (version_info : String) : String :=
  ⟨normalizeChars version_info.data⟩

/-- `get_linux_distribution` from `main.py` lines 29-35, with the `distro`
module's name and raw version string passed in as inputs. -/
def get_linux_distribution (name version_info : String) : String × String :=
  (name, normalize_distro_version version_info)

/-- The `psmpsrv` block of `check_services_status` (`main.py` lines 56-70).
`cmd` is `systemctl status psmpsrv`, `logFile` the attempt to read
`/var/opt/CARKpsmp/logs/PSMPConsole.log` (`.error ()` = the open raised).
Only `subprocess.CalledProcessError` is caught, so a failed log read
escapes as an uncaught `FileNotFoundError`. -/
def psmpsrvStatus (cmd logFile : Except Unit String) : Except String String :=
  match cmd with
  | .error _ => .ok "Inactive"
  | .ok out =>
    if strContains out "Active: active" then
      match logFile with
      | .error _ => .error "FileNotFoundError"
      | .ok log_content =>
        if strContains log_content "is up and working with Vault" then
          .ok "Running and communicating with Vault"
        else
          .ok "Running but not communicating with Vault"
    else if strContains out "Active: inactive" then .ok "Inactive"
    else .ok "Inactive"

/-- `check_services_status` from `main.py` lines 52-84: the returned pair is
the dictionary `(psmpsrv, sshd)`; an exception in the `psmpsrv` block aborts
the whole function before the `sshd` block runs. -/
def check_services_status (psmpCmd psmpLog sshdCmd : Except Unit String) : Except String (String × String) :=
  match psmpsrvStatus psmpCmd psmpLog with
  | .error e => .error e
  | .ok psmpsrv =>
    let sshd :=
      match sshdCmd with
      | .error _ => "Inactive"
      | .ok out =>
        if strContains out "Active: active" then "Running"
        else if strContains out "Active: inactive" then "Inactive"
        else "Inactive"
    .ok (psmpsrv, sshd)

/-- Value of a decimal digit string (used after the regex guarantees each
character is a digit). -/
def digitsToNat (l : List Char) : Nat :=
  l.foldl (fun a c => 10 * a + (c.toNat - 48)) 0

/-- Maximal run of leading decimal digits of `l`, with the remainder. -/
def takeDigits : List Char → List Char × List Char
  | [] => ([], [])
  | c :: rest =>
    if c.isDigit then
      let (d, r) := takeDigits rest
      (c :: d, r)
    else ([], c :: rest)

/-- Matches the regex fragment `(\d+\.\d+)` at the head of `l`, returning the
major and minor digit runs. -/
def matchVer (l : List Char) : Option (List Char × List Char) :=
  let (mj, r1) := takeDigits l
  if mj.isEmpty then none
  else
    match r1 with
    | '.' :: r2 =>
      let (mn, _) := takeDigits r2
      if mn.isEmpty then none else some (mj, mn)
    | _ => none

/-- `re.search(r"OpenSSH_(\d+\.\d+)", ·)`: leftmost occurrence of the literal
`OpenSSH_` followed by a full `\d+\.\d+` match; on a failed tail the scan
resumes one character further, as the regex engine does. -/
def sshSearchChars : List Char → Option (List Char × List Char)
  | [] => none
  | c :: rest =>
    if List.isPrefixOf "OpenSSH_".data (c :: rest) then
      match matchVer ((c :: rest).drop 8) with
      | some p => some p
      | none => sshSearchChars rest
    else sshSearchChars rest

/-- Exact value of Python's `float("<mj>.<mn>")` for the matched digit runs:
`mj + mn / 10 ^ |mn|`, written with `mkRat` (`mkRat n d = n / d`) so that the
kernel can evaluate it. -/
def verVal (mj mn : List Char) : ℚ :=
  mkRat (digitsToNat mj * 10 ^ mn.length + digitsToNat mn) (10 ^ mn.length)

/-- Fractional digits of the matched minor run with trailing zeros removed
(`['0']` when all are zero): the fractional part of Python's `str(float)`
shortest decimal rendering at the values this program handles. -/
def stripZeros (mn : List Char) : List Char :=
  let r := mn.reverse.dropWhile (fun c => c = '0')
  if r.isEmpty then ['0'] else r.reverse

/-- Python's `str(ssh_version)` for the parsed version float. -/
def verStr (mj mn : List Char) : String :=
  toString (digitsToNat mj) ++ "." ++ ⟨stripZeros mn⟩

/-- `get_openssh_version` from `main.py` lines 86-97: `.error ()` is a
`CalledProcessError` of `ssh -V` (caught, yielding `None`); otherwise the
output is searched for the version token.  The Python function returns the
parsed float; the model keeps the matched digit runs, from which the float's
value (`verVal`) and rendering (`verStr`) are derived. -/
def get_openssh_version (cmd : Except Unit String) : Option (List Char × List Char) :=
  match cmd with
  | .error _ => none
  | .ok out => sshSearchChars out.data

/-- `check_openssh_version` from `main.py` lines 100-112.  Its own
`except subprocess.CalledProcessError` clause is unreachable because
`get_openssh_version` already catches that exception, so the `None` result
covers both a failed command and an absent pattern. -/
def check_openssh_version (cmd : Except Unit String) : Bool × String × Option ℚ :=
  match get_openssh_version cmd with
  | some (mj, mn) =>
    if verVal mj mn ≥ mkRat 77 10 then (true, "", some (verVal mj mn))
    else
      (false, "[+] OpenSSH version is: " ++ verStr mj mn ++ ", required version 7.7 and above.",
        some (verVal mj mn))
  | none => (false, "Failed to determine OpenSSH version.", none)

/-- `check_sshd_config` from `main.py` lines 116-143, over the config file's
lines (`none` = `FileNotFoundError` on open); returns the printed lines.
`found_pubkey_accepted_algorithms` is computed but never read afterwards,
exactly as in the source, where the final advisory is keyed on
`found_allow_user` alone. -/
def check_sshd_config (file : Option (List String)) : List String :=
  match file with
  | none => ["sshd_config file not found."]
  | some lines =>
    let found_pmsp_auth_block :=
      lines.any fun l => pyStrip l == "# PSMP Authentication Configuration Block Start"
    let found_allow_user :=
      lines.any fun l => pyStartsWith (pyStrip l) "AllowUser"
    let _found_pubkey_accepted_algorithms :=
      lines.any fun l => strContains l "PubkeyAcceptedAlgorithms" && !pyStartsWith (pyStrip l) "#"
    (if !found_pmsp_auth_block then ["PSMP authentication block not found."] else []) ++
      (if found_allow_user then ["AllowUser mentioned found."]
       else ["[+] SSH-Key auth not enabled, sshd_config missing 'PubkeyAcceptedAlgorithms'."])

/-- One entry of the fixed `log_folders` list of `logs_collect`, with the
ambient facts the filesystem supplies: whether the path exists, whether it is
a directory, and the exception (if any) its `shutil` copy raises. -/
structure LogSource where
  path : String
  present : Bool
  isDir : Bool
  copyErr : Option String
deriving DecidableEq

/-- The copy loop of `logs_collect` (`main.py` lines 166-173): existing
sources are copied (a raised copy exception aborts the loop), missing ones
are reported and skipped.  Returns the printed lines and the exception, if
one was raised. -/
def copyLoop : List LogSource → List String × Option String
  | [] => ([], none)
  | s :: rest =>
    if s.present then
      match s.copyErr with
      | some e => ([], some e)
      | none => copyLoop rest
    else
      let (ps, ex) := copyLoop rest
      (("Folder not found: " ++ s.path) :: ps, ex)

/-- The `try` body of `logs_collect` (`main.py` lines 164-186): the copy
loop, then the zip-archive phase (`zipErr` abstracts an exception raised
while walking or writing the archive), then the success print. -/
def tryBody (sources : List LogSource) (zipErr : Option String) (dateStr : String) :
    List String × Option String :=
  let (ps, ex) := copyLoop sources
  match ex with
  | some e => (ps, some e)
  | none =>
    match zipErr with
    | some e => (ps, some e)
    | none => (ps ++ ["Logs copied and zip file created: PSMP_Logs_" ++ dateStr ++ ".zip"], none)

/-- Result state of `logs_collect`: whether `/tmp/psmp_logs` still exists
when the function returns, everything printed, and the archive name when the
zip phase completed. -/
structure CollectState where
  stagingExists : Bool
  printed : List String
  archive : Option String
deriving DecidableEq

/-- `logs_collect` from `main.py` lines 145-193.  `os.makedirs` creates the
staging directory, the `try` body runs, `except Exception` prints any raised
exception, and the `finally` clause removes the staging directory
(`shutil.rmtree(..., ignore_errors=True)`) on every path, so the function
always returns normally with `stagingExists = false`. -/
def logs_collect (sources : List LogSource) (zipErr : Option String) (dateStr : String) :
    CollectState :=
  let (ps, ex) := tryBody sources zipErr dateStr
  match ex with
  | some e =>
    { stagingExists := false, printed := ps ++ ["An error occurred: " ++ e], archive := none }
  | none =>
    { stagingExists := false, printed := ps,
      archive := some ("PSMP_Logs_" ++ dateStr ++ ".zip") }

/-- Ambient inputs of the `__main__` block: the loaded support matrix (the
JSON load is assumed to succeed), the outputs of the shell commands, the
`distro` module's metadata, the sshd config file, and the log-collection
environment. -/
structure MainEnv where
  matrix : SupportMatrix
  rpmOut : Except Unit String
  distroName : String
  distroVerInfo : String
  psmpCmd : Except Unit String
  psmpLog : Except Unit String
  sshdCmd : Except Unit String
  sshCmd : Except Unit String
  sshdConfigFile : Option (List String)
  logSources : List LogSource
  zipErr : Option String
  dateStr : String

/-- Outcome of a normal termination of the `__main__` block. -/
structure MainResult where
  exitStatus : Nat
  printed : List String
  ranChecks : Bool
deriving DecidableEq

/-- The `__main__` block of `main.py` lines 194-230.  `argv` is the full
`sys.argv` including the program name.  With exactly the argument `logs`,
logs are collected and the process exits with status 1 before any diagnostic
check.  Otherwise the installed version is queried (its uncaught exceptions
propagate); a missing version prints the notice and exits with status 1; else
the diagnostic lines are printed and the process falls off the end of the
script, exiting with status 0.  `ranChecks` records whether the diagnostic
checks (compatibility, services, OpenSSH, sshd config) were reached. -/
def main_run (argv : List String) (env : MainEnv) : Except String MainResult :=
  if argv.length = 2 ∧ argv.getD 1 "" = "logs" then
    let st := logs_collect env.logSources env.zipErr env.dateStr
    .ok { exitStatus := 1, printed := st.printed, ranChecks := false }
  else
    match get_installed_psmp_version env.rpmOut with
    | .error e => .error e
    | .ok none => .ok { exitStatus := 1, printed := ["[+] No PSMP version found."], ranChecks := false }
    | .ok (some psmp_version) =>
      let (distro_name, distro_version) := get_linux_distribution env.distroName env.distroVerInfo
      let header := ["PSMP version: " ++ psmp_version,
        "Linux distribution: " ++ distro_name ++ " " ++ distro_version]
      let compat :=
        if is_supported env.matrix psmp_version distro_name distro_version then
          ["PSMP version " ++ psmp_version ++ " Supports " ++ distro_name ++ " " ++ distro_version]
        else
          ["PSMP version " ++ psmp_version ++ " Does Not Support " ++ distro_name ++ " " ++ distro_version]
      match check_services_status env.psmpCmd env.psmpLog env.sshdCmd with
      | .error e => .error e
      | .ok (psmpsrv, sshd) =>
        let svc := ["PSMP Service Status: " ++ psmpsrv, "SSHD Service Status: " ++ sshd]
        let r := check_openssh_version env.sshCmd
        let sshMsg := if r.1 then [] else [r.2.1]
        let audit := check_sshd_config env.sshdConfigFile
        .ok { exitStatus := 0,
              printed := header ++ compat ++ svc ++ sshMsg ++ audit,
              ranChecks := true }

/-- Exit status of a normally terminating run. -/
def mainExit : Except String MainResult → Option Nat
  | .ok r => some r.exitStatus
  | .error _ => none

/-- Whether a normally terminating run reached the diagnostic checks. -/
def mainRan : Except String MainResult → Option Bool
  | .ok r => some r.ranChecks
  | .error _ => none

/-- C1 (counterexample): with the single matrix key `"14.0"`, installed
version `"14"` and distro `("Red Hat", "8.6")`, the claim's condition holds
(a key starts with `"14"`, the name matches case-insensitively and `"8"` is
a prefix of `"8.6"`), yet `is_supported` returns false: the exact-key
membership pre-check on line 39 rejects `"14"`, so the claim's "does not
additionally require V to be exactly one of the matrix keys" is false. -/
theorem c1_counterexample :
    is_supported [("14.0", ⟨[⟨"Red Hat", ["8"]⟩]⟩)] "14" "Red Hat" "8.6" = false ∧
      claimSupported [("14.0", ⟨[⟨"Red Hat", ["8"]⟩]⟩)] "14" "Red Hat" "8.6" = true := by
  decide

/-- C1 (amended): `is_supported` returns true iff the installed version is
exactly one of the matrix keys and, in addition, some matrix key starting
with it carries a supported-distribution entry whose name equals the distro
name case-insensitively and one of whose declared version-prefixes is a
prefix of the distro version string. -/
theorem c1_is_supported_needs_exact_key :
    ∀ (m : SupportMatrix) (V n v : String),
      is_supported m V n v = ((m.any fun kv => kv.1 == V) && claimSupported m V n v) := by
  intro m V n v
  unfold is_supported claimSupported
  cases h : m.any fun kv => kv.1 == V <;> simp [h]

/-- C2 (code evaluated at the failing input): a config file whose single
line is an uncommented `PubkeyAcceptedAlgorithms` directive (and no
`AllowUser` line) still gets the "key auth not enabled" advisory, because the
source keys that advisory on the absence of `AllowUser` and never reads
`found_pubkey_accepted_algorithms`; the claim (and the advisory's own text)
say the uncommented line should suppress it. -/
theorem c2_advisory_despite_pubkey_line :
    check_sshd_config (some ["PubkeyAcceptedAlgorithms +ssh-rsa"]) =
      ["PSMP authentication block not found.",
        "[+] SSH-Key auth not enabled, sshd_config missing 'PubkeyAcceptedAlgorithms'."] := by
  decide

/-- C10: `get_installed_psmp_version` is not total over non-empty package
query outputs: `"CARKpsmp-14.0"` (second `-`-field with fewer than three
`.`-components) raises an uncaught `ValueError` from the three-way unpacking,
and `"CARKpsmp"` (no `-` at all) raises an uncaught `IndexError` from the
`[1]` access. -/
theorem c10_version_extraction_not_total :
    get_installed_psmp_version (.ok "CARKpsmp-14.0") = .error "ValueError" ∧
      get_installed_psmp_version (.ok "CARKpsmp") = .error "IndexError" ∧
      ("CARKpsmp-14.0" : String) ≠ "" :=
  ⟨rfl, rfl, by decide⟩

/-- C3 (counterexample): with a status text containing `Active: active` and a
failing log read, `check_services_status` does not return normally with the
running-but-not-connected classification — the uncaught `FileNotFoundError`
escapes, because only `subprocess.CalledProcessError` is caught. -/
theorem c3_counterexample :
    check_services_status (.ok "Active: active (running)") (.error ()) (.ok "") =
      .error "FileNotFoundError" := rfl

/-- C3 (amended): when the `psmpsrv` status text contains `Active: active`
and the agent log read fails, the exception propagates out of
`check_services_status`; the "Running but not communicating with Vault"
classification is produced only when the log read succeeds and the success
marker is absent. -/
theorem c3_logfile_failure_propagates :
    ∀ (out log_content : String) (sshdCmd : Except Unit String),
      strContains out "Active: active" = true →
      (check_services_status (.ok out) (.error ()) sshdCmd = .error "FileNotFoundError" ∧
        (strContains log_content "is up and working with Vault" = false →
          psmpsrvStatus (.ok out) (.ok log_content) =
            .ok "Running but not communicating with Vault")) := by
  intro out log_content sshdCmd h
  constructor
  · simp [check_services_status, psmpsrvStatus, h]
  · intro h2
    simp [psmpsrvStatus, h, h2]

/-- C3 (witness): the amended statement at a concrete status text and log. -/
theorem c3_logfile_failure_propagates_witness :
    check_services_status (.ok "Active: active (running)") (.error ()) (.ok "x") =
        .error "FileNotFoundError" ∧
      psmpsrvStatus (.ok "Active: active (running)") (.ok "PSMP starting up") =
        .ok "Running but not communicating with Vault" :=
  ⟨(c3_logfile_failure_propagates "Active: active (running)" "PSMP starting up" (.ok "x")
      (by decide)).1,
    (c3_logfile_failure_propagates "Active: active (running)" "PSMP starting up" (.ok "x")
      (by decide)).2 (by decide)⟩

/-- C4 (counterexample): a failed `psmpsrv` status query yields the value
`"Inactive"`, the very same value produced by a status text reporting the
service inactive — not the distinct "Unavailable (query failed)" value the
claim requires; the two runs produce identical mappings. -/
theorem c4_counterexample :
    check_services_status (.error ()) (.ok "log") (.error ()) = .ok ("Inactive", "Inactive") ∧
      check_services_status (.error ()) (.ok "log") (.error ()) =
        check_services_status (.ok "Active: inactive (dead)") (.ok "log")
          (.ok "Active: inactive (dead)") :=
  ⟨rfl, rfl⟩

/-- C4 (amended): a failed status query is mapped to `"Inactive"`, and the
whole returned mapping coincides with that of a service whose state text
reports it inactive — a failed query is not distinguishable in the result. -/
theorem c4_query_failure_reported_inactive :
    ∀ (logFile sshdCmd : Except Unit String),
      psmpsrvStatus (.error ()) logFile = .ok "Inactive" ∧
        check_services_status (.error ()) logFile sshdCmd =
          check_services_status (.ok "Active: inactive") logFile sshdCmd := by
  intro logFile sshdCmd
  exact ⟨rfl, rfl⟩

/-- C6 (counterexample): a failed version command and a successful command
whose output lacks the `OpenSSH_<major>.<minor>` token produce the identical
result `(false, "Failed to determine OpenSSH version.", none)` — not the two
distinct messages the claim requires. -/
theorem c6_counterexample :
    check_openssh_version (.error ()) = (false, "Failed to determine OpenSSH version.", none) ∧
      check_openssh_version (.ok "ssh: unknown option") =
        (false, "Failed to determine OpenSSH version.", none) ∧
      check_openssh_version (.error ()) = check_openssh_version (.ok "ssh: unknown option") :=
  ⟨rfl, rfl, rfl⟩

/-- C6 (amended): `get_openssh_version` collapses both failure modes into
`None`, so `check_openssh_version` returns the single result
`(false, "Failed to determine OpenSSH version.", none)` both when the
pattern is absent from the output and when the version command fails; the
two cases are not distinguishable. -/
theorem c6_failure_modes_identical :
    ∀ out : String, sshSearchChars out.data = none →
      check_openssh_version (.ok out) = (false, "Failed to determine OpenSSH version.", none) ∧
        check_openssh_version (.error ()) =
          (false, "Failed to determine OpenSSH version.", none) := by
  intro out h
  exact ⟨by simp [check_openssh_version, get_openssh_version, h], rfl⟩

/-- C6 (witness): the amended statement at a concrete token-free output. -/
theorem c6_failure_modes_identical_witness :
    check_openssh_version (.ok "usage: ssh [-46AaCfGgKkMNnqsTtVvXxYy]") =
      (false, "Failed to determine OpenSSH version.", none) :=
  (c6_failure_modes_identical "usage: ssh [-46AaCfGgKkMNnqsTtVvXxYy]" (by decide)).1

/-- C5: when the version token is matched, a parsed value of 7.6 yields
`ok = false` with the message naming 7.6 and the 7.7 requirement, any value
at or above 7.7 yields `ok = true`, and any value below 7.7 yields
`ok = false` with the detected version rendered in the message
(`mkRat a b` is the rational `a / b`). -/
theorem c5_openssh_threshold :
    ∀ (out : String) (mj mn : List Char),
      sshSearchChars out.data = some (mj, mn) →
      ((mj = ['7'] ∧ mn = ['6'] →
          check_openssh_version (.ok out) =
            (false, "[+] OpenSSH version is: 7.6, required version 7.7 and above.",
              some (mkRat 38 5))) ∧
        (verVal mj mn ≥ mkRat 77 10 → (check_openssh_version (.ok out)).1 = true) ∧
        (verVal mj mn < mkRat 77 10 →
          (check_openssh_version (.ok out)).1 = false ∧
            (check_openssh_version (.ok out)).2.1 =
              "[+] OpenSSH version is: " ++ verStr mj mn ++
                ", required version 7.7 and above.")) := by
  intro out mj mn h
  have hg : get_openssh_version (.ok out) = some (mj, mn) := h
  refine ⟨?_, ?_, ?_⟩
  · rintro ⟨rfl, rfl⟩
    simp only [check_openssh_version, hg]
    rw [if_neg (by decide : ¬ (verVal ['7'] ['6'] ≥ mkRat 77 10))]
    decide
  · intro hge
    simp only [check_openssh_version, hg]
    rw [if_pos hge]
  · intro hlt
    simp only [check_openssh_version, hg]
    rw [if_neg (not_le.mpr hlt)]
    exact ⟨rfl, rfl⟩

/-- C5 (witness): concrete outputs with tokens 7.6, 7.7 and 8.9. -/
theorem c5_openssh_threshold_witness :
    check_openssh_version (.ok "OpenSSH_7.6p1 Ubuntu-4ubuntu0.7") =
        (false, "[+] OpenSSH version is: 7.6, required version 7.7 and above.",
          some (mkRat 38 5)) ∧
      (check_openssh_version (.ok "OpenSSH_7.7p1")).1 = true ∧
      (check_openssh_version (.ok "OpenSSH_8.9p1")).1 = true :=
  ⟨(c5_openssh_threshold "OpenSSH_7.6p1 Ubuntu-4ubuntu0.7" ['7'] ['6'] (by decide)).1
      ⟨rfl, rfl⟩,
    (c5_openssh_threshold "OpenSSH_7.7p1" ['7'] ['7'] (by decide)).2.1 (by decide),
    (c5_openssh_threshold "OpenSSH_8.9p1" ['8'] ['9'] (by decide)).2.1 (by decide)⟩

/-- C7: `logs_collect` removes the staging directory on every exit path, and
any exception raised inside the copy/compression body is caught and reported
as an "An error occurred" line instead of propagating (the function's result
is an ordinary state, never an exception). -/
theorem c7_staging_cleanup :
    ∀ (sources : List LogSource) (zipErr : Option String) (dateStr : String),
      (logs_collect sources zipErr dateStr).stagingExists = false ∧
        (∀ e : String, (tryBody sources zipErr dateStr).2 = some e →
          ("An error occurred: " ++ e) ∈ (logs_collect sources zipErr dateStr).printed) := by
  intro sources zipErr dateStr
  rcases h : tryBody sources zipErr dateStr with ⟨ps, ex⟩
  cases ex with
  | none =>
    refine ⟨by simp [logs_collect, h], ?_⟩
    intro e he
    simp at he
  | some e0 =>
    refine ⟨by simp [logs_collect, h], ?_⟩
    intro e he
    obtain rfl : e0 = e := by simpa using he
    simp [logs_collect, h]

/-- C7 (witness): a copy that raises leaves no staging directory and the
exception is reported in the printed output. -/
theorem c7_staging_cleanup_witness :
    (logs_collect [⟨"/var/log/secure", true, false, some "Permission denied"⟩] none
        "01.01.25").stagingExists = false ∧
      "An error occurred: Permission denied" ∈
        (logs_collect [⟨"/var/log/secure", true, false, some "Permission denied"⟩] none
          "01.01.25").printed :=
  ⟨(c7_staging_cleanup [⟨"/var/log/secure", true, false, some "Permission denied"⟩] none
      "01.01.25").1,
    (c7_staging_cleanup [⟨"/var/log/secure", true, false, some "Permission denied"⟩] none
      "01.01.25").2 "Permission denied" rfl⟩

/-- C8: invoked as `<prog> logs`, the program collects logs and exits with
status 1 without reaching the diagnostic checks; in diagnostic mode a
missing installed version prints the no-version notice and exits with
status 1 before any check; otherwise (version found and the service check
returning normally) the process exits with status 0 having run the checks. -/
theorem c8_exit_behavior :
    ∀ (p : String) (env : MainEnv),
      main_run [p, "logs"] env =
          .ok { exitStatus := 1,
                printed := (logs_collect env.logSources env.zipErr env.dateStr).printed,
                ranChecks := false } ∧
        (get_installed_psmp_version env.rpmOut = .ok none →
          main_run [p] env =
            .ok { exitStatus := 1, printed := ["[+] No PSMP version found."],
                  ranChecks := false }) ∧
        (∀ (v : String) (pr : String × String),
          get_installed_psmp_version env.rpmOut = .ok (some v) →
          check_services_status env.psmpCmd env.psmpLog env.sshdCmd = .ok pr →
          mainExit (main_run [p] env) = some 0 ∧ mainRan (main_run [p] env) = some true) := by
  intro p env
  refine ⟨?_, ?_, ?_⟩
  · simp [main_run]
  · intro h
    simp [main_run, h]
  · rintro v ⟨ps, ss⟩ h1 h2
    simp [main_run, h1, h2, get_linux_distribution, mainExit, mainRan]

/-- C8 (witness): a run with no installed agent exits with status 1 after
the notice, and a full diagnostic run exits with status 0. -/
theorem c8_exit_behavior_witness :
    main_run ["main.py"]
        ⟨[], .error (), "Red Hat", "8.6", .error (), .ok "", .error (), .error (), none, [],
          none, "01.01.25"⟩ =
        .ok { exitStatus := 1, printed := ["[+] No PSMP version found."], ranChecks := false } ∧
      mainExit
          (main_run ["main.py"]
            ⟨[], .ok "CARKpsmp-14.0.0-14.x86_64", "Red Hat", "8.6", .error (), .ok "",
              .error (), .error (), none, [], none, "01.01.25"⟩) = some 0 :=
  ⟨(c8_exit_behavior "main.py"
      ⟨[], .error (), "Red Hat", "8.6", .error (), .ok "", .error (), .error (), none, [],
        none, "01.01.25"⟩).2.1 rfl,
    ((c8_exit_behavior "main.py"
        ⟨[], .ok "CARKpsmp-14.0.0-14.x86_64", "Red Hat", "8.6", .error (), .ok "",
          .error (), .error (), none, [], none, "01.01.25"⟩).2.2 "14.0"
      ("Inactive", "Inactive") rfl rfl).1⟩

/-- `pySplit` never returns the empty list of components. -/
theorem pySplit_ne_nil (sep : Char) : ∀ l : List Char, pySplit sep l ≠ []
  | [] => by simp [pySplit]
  | c :: rest => by
    simp only [pySplit]
    rcases h : pySplit sep rest with _ | ⟨h0, t⟩ <;>
      by_cases hc : c = sep <;> simp [hc, h]

/-- `pySplit` on a separator-free list yields that list as the only
component. -/
theorem pySplit_sep_free (sep : Char) : ∀ l : List Char, sep ∉ l → pySplit sep l = [l]
  | [], _ => rfl
  | c :: rest, h => by
    have hc : ¬ c = sep := by
      rintro rfl
      exact h (List.mem_cons_self _ _)
    have ih := pySplit_sep_free sep rest fun hm => h (List.mem_cons_of_mem _ hm)
    simp [pySplit, hc, ih]

/-- Splitting at the first separator after a separator-free head peels that
head off as the first component. -/
theorem pySplit_append (sep : Char) : ∀ (a b : List Char), sep ∉ a →
    pySplit sep (a ++ sep :: b) = a :: pySplit sep b
  | [], b, _ => by simp [pySplit]
  | c :: a, b, h => by
    have hc : ¬ c = sep := by
      rintro rfl
      exact h (List.mem_cons_self _ _)
    have ih := pySplit_append sep a b fun hm => h (List.mem_cons_of_mem _ hm)
    simp [pySplit, hc, ih]

/-- C9: the program's major.minor normalization is idempotent — applied to a
string already of the normalized `major.minor` form (a dot-free major, one
dot, a dot-free minor) it returns that same string. -/
theorem c9_normalize_idempotent :
    ∀ a b : List Char, '.' ∉ a → '.' ∉ b →
      normalize_distro_version ⟨a ++ '.' :: b⟩ = ⟨a ++ '.' :: b⟩ := by
  intro a b ha hb
  unfold normalize_distro_version normalizeChars
  simp [pySplit_append '.' a b ha, pySplit_sep_free '.' b hb]

/-- C9 (witness): normalizing the already-normalized `"14.0"` returns it
unchanged. -/
theorem c9_normalize_idempotent_witness :
    normalize_distro_version ⟨['1', '4'] ++ '.' :: ['0']⟩ = ⟨['1', '4'] ++ '.' :: ['0']⟩ :=
  c9_normalize_idempotent ['1', '4'] ['0'] (by decide) (by decide)
